import Mathlib

/-!
Verification of the peer2school signaling server (`src/server.js`).

The server keeps an in-memory registry of connected sockets, a broken-socket
flag map, a room table (in the external `./rooms` module, modelled from the
spec), and a per-connection `currentRoom` session variable.  Events `join`,
`signal`, and the three teardown triggers (`disconnect`, `disconnecting`,
`error`) mutate that state and emit messages.  We embed the state, the
handlers, and a step relation driven by event lists, and prove the claimed
invariants and behaviours.
-/

namespace PeerSchool

/-- Connection identifiers (socket.io assigns a fresh unique id per
transport-level connection). -/
abbrev SID := Nat

/-- Room names are arbitrary externally supplied strings. -/
abbrev RoomName := String

/-- The Room Table maps a room name to the ordered membership list.  The spec
states that absence of a room is semantically identical to an empty room, so a
total function into lists is a faithful model of the table. -/
abbrev RoomTable := RoomName → List SID

/-- Modelled from the spec: the Room Table module (`./rooms`, required by
server.js line 8 but not present under `src/`) — `membersOf(roomName)` returns
the ordered sequence of member identifiers, the empty sequence if the room is
unknown. -/
def allSocketsForRoom (rooms : RoomTable) (room : RoomName) : List SID :=
  rooms room

/-- Modelled from the spec: the Room Table module (`./rooms`) —
`add(connectionID, roomName)` appends the identifier to the room's membership,
creating the room entry if absent (here: appending to the empty list). -/
def addSocketToRoom (rooms : RoomTable) (sid : SID) (room : RoomName) : RoomTable :=
  fun r => if r = room then rooms r ++ [sid] else rooms r

/-- Modelled from the spec: the Room Table module (`./rooms`) —
`remove(connectionID, roomName)` removes the identifier from the room, a no-op
when the identifier is not a member or when the room name is absent (the
server passes its possibly-undefined `currentRoom` variable, modelled as
`Option RoomName`). -/
def removeSocketFromRoom (rooms : RoomTable) (sid : SID) (room? : Option RoomName) : RoomTable :=
  match room? with
  | none => rooms
  | some room => fun r => if r = room then (rooms r).filter (fun x => x != sid) else rooms r

/-- Modelled from the spec: the configuration collaborator (`./config`,
required by server.js line 14 but not present under `src/`) supplies the room
capacity `config.max` read by the join handler (server.js line 84); the spec
fixes the default: "room capacity (default 50)".  This mirrors
`max: config.max || 50` (server.js line 21). -/
def configMax (configured : Option Nat) : Nat :=
  match configured with
  | none => 50
  | some m => m

/-- The payload of a `signal` event: a `from` identifier, a `to` identifier
(either may be missing, matching JS `undefined`), and the rest of the opaque
handshake payload, which the relay never inspects. -/
structure SignalData where
  fromID : Option SID
  toID : Option SID
  payload : Nat
deriving DecidableEq

/-- Outbound messages of the relay (server.js lines 45, 86-90, 95-98, 111). -/
inductive Msg where
  | joined (room : RoomName) (peers : List SID)
  | errorMsg (error : String) (code : Nat) (full : Bool)
  | removeMsg (id : SID)
  | signalMsg (data : SignalData)
deriving DecidableEq

/-- The whole relay state: the transport's connected-socket registry
(`io.sockets.connected`), the `brokenSockets` map (server.js line 36), the
room table held by the `./rooms` module, the per-connection `currentRoom`
session variable (server.js line 68, `none` until the first accepted join,
never cleared), the set of identifiers ever assigned (socket ids are unique
for the process lifetime), and the list of emitted messages paired with their
recipient. -/
structure ServerState where
  connected : List SID
  brokenSockets : SID → Bool
  rooms : RoomTable
  currentRoom : SID → Option RoomName
  used : List SID
  outbox : List (SID × Msg)

/-- The initial state: no sockets, no rooms, nothing emitted. -/
def initState : ServerState where
  connected := []
  brokenSockets := fun _ => false
  rooms := fun _ => []
  currentRoom := fun _ => none
  used := []
  outbox := []

/-- `socketByID` (server.js lines 48-50): `io.sockets.connected[id]` — resolves
an identifier in the transport's connected registry; the broken flag is not
consulted. -/
def socketByID (s : ServerState) (id : SID) : Option SID :=
  if id ∈ s.connected then some id else none

/-- `brokenSocket` (server.js lines 42-46): records the socket id in
`brokenSockets` and broadcasts `remove {id}` via `io.emit`, which delivers to
every socket currently in the connected registry, with no exclusion. -/
def brokenSocket (s : ServerState) (sid : SID) : ServerState :=
  { s with
    brokenSockets := fun x => if x = sid then true else s.brokenSockets x
    outbox := s.outbox ++ s.connected.map (fun c => (c, Msg.removeMsg sid)) }

/-- The `join` handler (server.js lines 82-100), parameterized by the
configured capacity `max` (`config.max`): snapshot the membership, reject with
an `error` message when `peers.length >= config.max`, otherwise remove the
socket from its remembered current room, append it to the target room, record
the new current room, and reply `joined` with the snapshot. -/
def handleJoin (max : Nat) (s : ServerState) (sid : SID) (room : RoomName) : ServerState :=
  let peers := allSocketsForRoom s.rooms room
  let full := decide (peers.length ≥ max)
  if full then
    { s with outbox := s.outbox ++ [(sid, Msg.errorMsg ("Room " ++ room ++ " is full") 1 full)] }
  else
    { s with
      rooms := addSocketToRoom (removeSocketFromRoom s.rooms sid (s.currentRoom sid)) sid room
      currentRoom := fun x => if x = sid then some room else s.currentRoom x
      outbox := s.outbox ++ [(sid, Msg.joined room peers)] }

/-- The `signal` handler (server.js lines 103-119): the identity check
`data.from !== sid` only logs and never alters control flow; when `data.to` is
present and resolves via `socketByID`, the full payload is forwarded unchanged
to the target; otherwise the event is dropped with only a log entry. -/
def handleSignal (s : ServerState) (data : SignalData) : ServerState :=
  match data.toID with
  | none => s
  | some t =>
    match socketByID s t with
    | none => s
    | some toSocket => { s with outbox := s.outbox ++ [(toSocket, Msg.signalMsg data)] }

/-- The teardown handler (server.js lines 73-79), shared by the `disconnect`,
`disconnecting` and `error` triggers: `brokenSocket(socket)` then
`removeSocketFromRoom(sid, currentRoom)`; the `currentRoom` variable is not
cleared. -/
def handleTeardown (s : ServerState) (sid : SID) : ServerState :=
  let s1 := brokenSocket s sid
  { s1 with rooms := removeSocketFromRoom s1.rooms sid (s1.currentRoom sid) }

/-- The externally observable events driving the relay.  `connect` is the
transport accepting a new socket (with a fresh identifier); `transportClose`
is the transport removing a socket from its connected registry (socket.io does
this by itself around `disconnect`; an `error` trigger leaves the socket
connected); `teardown` is any of the three disconnect-like triggers firing the
handler of server.js lines 73-79. -/
inductive Event where
  | connect (sid : SID)
  | join (sid : SID) (room : RoomName)
  | signal (sid : SID) (data : SignalData)
  | teardown (sid : SID)
  | transportClose (sid : SID)

/-- One step of the relay: `join` and `signal` handlers can only fire for a
socket currently in the connected registry; the teardown handler can also fire
after transport-level removal (the `disconnect` trigger fires after socket.io
removes the socket from `connected`). -/
def step (max : Nat) (s : ServerState) (e : Event) : ServerState :=
  match e with
  | Event.connect sid =>
    if sid ∈ s.used then s
    else { s with connected := s.connected ++ [sid], used := s.used ++ [sid] }
  | Event.join sid room =>
    if sid ∈ s.connected then handleJoin max s sid room else s
  | Event.signal sid data =>
    if sid ∈ s.connected then handleSignal s data else s
  | Event.teardown sid =>
    if sid ∈ s.used then handleTeardown s sid else s
  | Event.transportClose sid =>
    { s with connected := s.connected.filter (fun x => x != sid) }

/-- Run the relay from the initial state over a list of events. -/
def run (max : Nat) (es : List Event) : ServerState :=
  es.foldl (step max) initState

/-- The room membership read at the point immediately before `addSocketToRoom`
runs inside the accepted branch of the join handler: the table after the
joining socket has been removed from its remembered current room. -/
def joinPreAddMembers (s : ServerState) (sid : SID) (room : RoomName) : List SID :=
  allSocketsForRoom (removeSocketFromRoom s.rooms sid (s.currentRoom sid)) room

/-- The inductive invariant tying the room table to the per-connection
session state: every membership list is duplicate-free, and a socket that is a
member of a room has that room recorded as its current room. -/
def Inv (s : ServerState) : Prop :=
  (∀ r, (s.rooms r).Nodup) ∧
  (∀ r sid, sid ∈ s.rooms r → s.currentRoom sid = some r)

theorem inv_init : Inv initState :=
  ⟨fun _ => List.nodup_nil, fun _ sid h => absurd h (List.not_mem_nil sid)⟩

theorem mem_of_mem_remove {rooms : RoomTable} {sid x : SID} {room? : Option RoomName}
    {r : RoomName} (h : x ∈ removeSocketFromRoom rooms sid room? r) : x ∈ rooms r := by
  cases room? with
  | none => exact h
  | some room =>
    simp only [removeSocketFromRoom] at h
    by_cases hr : r = room
    · rw [if_pos hr] at h
      exact (List.mem_filter.mp h).1
    · rwa [if_neg hr] at h

theorem nodup_remove {rooms : RoomTable} (h : ∀ r, (rooms r).Nodup) (sid : SID)
    (room? : Option RoomName) (r : RoomName) :
    ((removeSocketFromRoom rooms sid room?) r).Nodup := by
  cases room? with
  | none => exact h r
  | some room =>
    simp only [removeSocketFromRoom]
    by_cases hr : r = room
    · rw [if_pos hr]
      exact (h r).filter _
    · rw [if_neg hr]
      exact h r

theorem not_mem_remove_cur {s : ServerState} (hinv : Inv s) (sid : SID) (r : RoomName) :
    sid ∉ removeSocketFromRoom s.rooms sid (s.currentRoom sid) r := by
  intro hmem
  have hcur : s.currentRoom sid = some r := hinv.2 r sid (mem_of_mem_remove hmem)
  rw [hcur] at hmem
  simp only [removeSocketFromRoom, if_pos rfl, List.mem_filter] at hmem
  simp at hmem

theorem removeSocketFromRoom_idem (rooms : RoomTable) (sid : SID) (room? : Option RoomName) :
    removeSocketFromRoom (removeSocketFromRoom rooms sid room?) sid room?
      = removeSocketFromRoom rooms sid room? := by
  cases room? with
  | none => rfl
  | some room =>
    funext r
    simp only [removeSocketFromRoom]
    by_cases hr : r = room
    · rw [if_pos hr, if_pos hr, List.filter_filter]
      apply List.filter_congr
      intro x _
      exact Bool.and_self (x != sid)
    · rw [if_neg hr, if_neg hr]

theorem inv_of_eq {s t : ServerState} (hinv : Inv s) (hr : t.rooms = s.rooms)
    (hc : t.currentRoom = s.currentRoom) : Inv t := by
  constructor
  · rw [hr]
    exact hinv.1
  · rw [hr, hc]
    exact hinv.2

theorem inv_handleSignal {s : ServerState} (hinv : Inv s) (data : SignalData) :
    Inv (handleSignal s data) := by
  unfold handleSignal
  split
  · exact hinv
  · split
    · exact hinv
    · exact inv_of_eq hinv rfl rfl

theorem inv_handleTeardown {s : ServerState} (hinv : Inv s) (sid : SID) :
    Inv (handleTeardown s sid) := by
  refine ⟨fun r => nodup_remove hinv.1 sid _ r, fun r x hx => hinv.2 r x (mem_of_mem_remove hx)⟩

theorem inv_handleJoin {max : Nat} {s : ServerState} (hinv : Inv s) (sid : SID)
    (room : RoomName) : Inv (handleJoin max s sid room) := by
  simp only [handleJoin]
  split
  · exact inv_of_eq hinv rfl rfl
  · constructor
    · intro r
      simp only [addSocketToRoom]
      by_cases hr : r = room
      · rw [if_pos hr]
        rw [List.nodup_append]
        refine ⟨nodup_remove hinv.1 sid _ r, List.nodup_singleton sid, ?_⟩
        intro a ha hb
        rw [List.mem_singleton] at hb
        subst hb
        subst hr
        exact not_mem_remove_cur hinv a r ha
      · rw [if_neg hr]
        exact nodup_remove hinv.1 sid _ r
    · intro r x hx
      simp only [addSocketToRoom] at hx
      show (if x = sid then some room else s.currentRoom x) = some r
      by_cases hxs : x = sid
      · subst hxs
        rw [if_pos rfl]
        by_cases hr : r = room
        · rw [hr]
        · rw [if_neg hr] at hx
          exact absurd hx (not_mem_remove_cur hinv x r)
      · simp only [if_neg hxs]
        by_cases hr : r = room
        · rw [if_pos hr, List.mem_append, List.mem_singleton] at hx
          rcases hx with hx | hx
          · exact hinv.2 r x (mem_of_mem_remove hx)
          · exact absurd hx hxs
        · rw [if_neg hr] at hx
          exact hinv.2 r x (mem_of_mem_remove hx)

theorem inv_step {max : Nat} {s : ServerState} (hinv : Inv s) (e : Event) :
    Inv (step max s e) := by
  cases e with
  | connect sid =>
    simp only [step]
    split
    · exact hinv
    · exact inv_of_eq hinv rfl rfl
  | join sid room =>
    simp only [step]
    split
    · exact inv_handleJoin hinv sid room
    · exact hinv
  | signal sid data =>
    simp only [step]
    split
    · exact inv_handleSignal hinv data
    · exact hinv
  | teardown sid =>
    simp only [step]
    split
    · exact inv_handleTeardown hinv sid
    · exact hinv
  | transportClose sid => exact inv_of_eq hinv rfl rfl

theorem inv_foldl (max : Nat) (es : List Event) :
    ∀ s : ServerState, Inv s → Inv (es.foldl (step max) s) := by
  induction es with
  | nil => exact fun s h => h
  | cons e es ih => exact fun s h => ih _ (inv_step h e)

theorem inv_run (max : Nat) (es : List Event) : Inv (run max es) :=
  inv_foldl max es initState inv_init

theorem join_full_state {max : Nat} {s : ServerState} {sid : SID} {room : RoomName}
    (h1 : sid ∈ s.connected) (h2 : max ≤ (allSocketsForRoom s.rooms room).length) :
    step max s (Event.join sid room)
      = { s with outbox := s.outbox ++ [(sid, Msg.errorMsg ("Room " ++ room ++ " is full") 1 true)] } := by
  simp only [step, if_pos h1, handleJoin, decide_eq_true h2, if_true]

theorem join_accepted_state {max : Nat} {s : ServerState} {sid : SID} {room : RoomName}
    (h1 : sid ∈ s.connected) (h2 : (allSocketsForRoom s.rooms room).length < max) :
    step max s (Event.join sid room)
      = { s with
          rooms := addSocketToRoom (removeSocketFromRoom s.rooms sid (s.currentRoom sid)) sid room
          currentRoom := fun x => if x = sid then some room else s.currentRoom x
          outbox := s.outbox ++ [(sid, Msg.joined room (allSocketsForRoom s.rooms room))] } := by
  have hd : decide ((allSocketsForRoom s.rooms room).length ≥ max) = false :=
    decide_eq_false (Nat.not_le.mpr h2)
  simp only [step, if_pos h1, handleJoin, hd, Bool.false_eq_true, if_false]

theorem teardown_state {max : Nat} {s : ServerState} {sid : SID} (h : sid ∈ s.used) :
    step max s (Event.teardown sid)
      = { s with
          brokenSockets := fun x => if x = sid then true else s.brokenSockets x
          rooms := removeSocketFromRoom s.rooms sid (s.currentRoom sid)
          outbox := s.outbox ++ s.connected.map (fun c => (c, Msg.removeMsg sid)) } := by
  simp only [step, if_pos h, handleTeardown, brokenSocket]

theorem signal_drop_state {max : Nat} {s : ServerState} {sid : SID} {data : SignalData}
    (h : ∀ t, data.toID = some t → t ∉ s.connected) :
    step max s (Event.signal sid data) = s := by
  simp only [step]
  split
  · unfold handleSignal
    cases hto : data.toID with
    | none => rfl
    | some t =>
      have hnone : socketByID s t = none := by
        simp only [socketByID, if_neg (h t hto)]
      simp only [hnone]
  · rfl

/-- Semantics of invoking a membership-test method on an ordinary JS array:
`Array.prototype` offers `includes` for membership (since ES2016); `contains`
is not a method of ordinary arrays (it exists on `DOMTokenList`, not on
indexed sequences), so invoking it throws a `TypeError` at runtime. -/
def jsArrayCall (method : String) (arr : List String) (arg : String) : Except String Bool :=
  if method = ("includes") then Except.ok (decide (arg ∈ arr))
  else Except.error (("TypeError: ") ++ method ++ (" is not a function"))

/-- The referrer-host extraction of server.js line 146,
`(req.get("Referer") || "").match(/^(?:.*:\/\/)?([^\/]*)/)[1]`: the greedy
optional scheme prefix consumes everything up to the last occurrence of
`://`, and the capture group takes the following characters up to the first
slash. -/
def extractReferrerHost (referer : String) : String :=
  String.mk ((((referer.splitOn ("://")).getLastD ("")).data).takeWhile (fun c => c != '/'))

/-- The TURN whitelist gate of the `/peers.json` endpoint (server.js lines
144-148): when the shared secret `TURN_SECRET` is configured, the handler
evaluates `turnWhitelist.contains(host)` on the ordinary array built at line
140; with no secret configured the gate is skipped. -/
def peersWhitelistGate (turnSecret : Option String) (whitelist : List String)
    (referer : Option String) : Except String Bool :=
  match turnSecret with
  | none => Except.ok true
  | some _ => jsArrayCall ("contains") whitelist (extractReferrerHost (referer.getD ("")))

/-- C1: Room exclusivity (I1) — in every state reachable by any sequence of
connect, join, signal, teardown and transport-close events, a connection
identifier appears in the membership of at most one room: membership in two
rooms forces the room names to be equal.  The join handler maintains this by
removing the connection from its remembered previous room before adding it to
the new one. -/
theorem room_exclusivity_invariant (max : Nat) (es : List Event) (r1 r2 : RoomName)
    (sid : SID)
    (h1 : sid ∈ allSocketsForRoom (run max es).rooms r1)
    (h2 : sid ∈ allSocketsForRoom (run max es).rooms r2) :
    r1 = r2 := by
  have e1 := (inv_run max es).2 r1 sid h1
  have e2 := (inv_run max es).2 r2 sid h2
  rw [e1] at e2
  exact Option.some.inj e2

/-- Witness for C1 at a concrete run: connection 1 joins room "a" and the two
membership hypotheses are discharged by evaluation. -/
theorem room_exclusivity_invariant_witness :
    (1 ∈ allSocketsForRoom (run 50 [Event.connect 1, Event.join 1 ("a")]).rooms ("a"))
    ∧ (("a" : RoomName) = ("a" : RoomName)) :=
  ⟨by decide,
    room_exclusivity_invariant 50 [Event.connect 1, Event.join 1 ("a")] ("a") ("a") 1
      (by decide) (by decide)⟩

/-- C2: Capacity enforcement with default — when a join targets a room whose
membership size is at least the configured capacity (50 when no capacity is
configured), the requester receives the capacity-exceeded `error` reply
carrying the room name, error code 1 and the over-capacity flag, and the room
table is unchanged. -/
theorem capacity_enforcement_default (cfg : Option Nat) (es : List Event) (sid : SID)
    (room : RoomName)
    (h1 : sid ∈ (run (configMax cfg) es).connected)
    (h2 : configMax cfg ≤ (allSocketsForRoom (run (configMax cfg) es).rooms room).length) :
    ((step (configMax cfg) (run (configMax cfg) es) (Event.join sid room)).outbox
        = (run (configMax cfg) es).outbox
          ++ [(sid, Msg.errorMsg ("Room " ++ room ++ " is full") 1 true)])
    ∧ ((step (configMax cfg) (run (configMax cfg) es) (Event.join sid room)).rooms
        = (run (configMax cfg) es).rooms)
    ∧ configMax none = 50 := by
  rw [join_full_state h1 h2]
  exact ⟨rfl, rfl, rfl⟩

/-- Witness for C2 at a concrete run: capacity configured to 1, room "a"
already holds connection 1, and connection 2's join is rejected. -/
theorem capacity_enforcement_default_witness :
    (configMax (some 1)
        ≤ (allSocketsForRoom
            (run (configMax (some 1)) [Event.connect 1, Event.connect 2, Event.join 1 ("a")]).rooms
            ("a")).length)
    ∧ (((step (configMax (some 1))
            (run (configMax (some 1)) [Event.connect 1, Event.connect 2, Event.join 1 ("a")])
            (Event.join 2 ("a"))).outbox
          = (run (configMax (some 1)) [Event.connect 1, Event.connect 2, Event.join 1 ("a")]).outbox
            ++ [(2, Msg.errorMsg ("Room " ++ ("a") ++ " is full") 1 true)])
        ∧ ((step (configMax (some 1))
              (run (configMax (some 1)) [Event.connect 1, Event.connect 2, Event.join 1 ("a")])
              (Event.join 2 ("a"))).rooms
            = (run (configMax (some 1)) [Event.connect 1, Event.connect 2, Event.join 1 ("a")]).rooms)
        ∧ configMax none = 50) :=
  ⟨by decide,
    capacity_enforcement_default (some 1) [Event.connect 1, Event.connect 2, Event.join 1 ("a")]
      2 ("a") (by decide) (by decide)⟩

/-- C5: Capacity-rejection atomicity — a join rejected for capacity changes
no component of the relay state: the room table, the remembered current rooms,
the broken flags, the connected registry and the used-identifier list are all
exactly as before the event. -/
theorem capacity_rejection_atomic (max : Nat) (es : List Event) (sid : SID) (room : RoomName)
    (h1 : sid ∈ (run max es).connected)
    (h2 : max ≤ (allSocketsForRoom (run max es).rooms room).length) :
    ((step max (run max es) (Event.join sid room)).rooms = (run max es).rooms)
    ∧ ((step max (run max es) (Event.join sid room)).currentRoom = (run max es).currentRoom)
    ∧ ((step max (run max es) (Event.join sid room)).brokenSockets = (run max es).brokenSockets)
    ∧ ((step max (run max es) (Event.join sid room)).connected = (run max es).connected)
    ∧ ((step max (run max es) (Event.join sid room)).used = (run max es).used) := by
  rw [join_full_state h1 h2]
  exact ⟨rfl, rfl, rfl, rfl, rfl⟩

/-- Witness for C5 at a concrete run: with capacity 1 and room "a" full,
connection 2's rejected join leaves every state component unchanged. -/
theorem capacity_rejection_atomic_witness :
    (1 ≤ (allSocketsForRoom
          (run 1 [Event.connect 1, Event.connect 2, Event.join 1 ("a")]).rooms ("a")).length)
    ∧ (((step 1 (run 1 [Event.connect 1, Event.connect 2, Event.join 1 ("a")])
            (Event.join 2 ("a"))).rooms
          = (run 1 [Event.connect 1, Event.connect 2, Event.join 1 ("a")]).rooms)
        ∧ ((step 1 (run 1 [Event.connect 1, Event.connect 2, Event.join 1 ("a")])
              (Event.join 2 ("a"))).currentRoom
            = (run 1 [Event.connect 1, Event.connect 2, Event.join 1 ("a")]).currentRoom)
        ∧ ((step 1 (run 1 [Event.connect 1, Event.connect 2, Event.join 1 ("a")])
              (Event.join 2 ("a"))).brokenSockets
            = (run 1 [Event.connect 1, Event.connect 2, Event.join 1 ("a")]).brokenSockets)
        ∧ ((step 1 (run 1 [Event.connect 1, Event.connect 2, Event.join 1 ("a")])
              (Event.join 2 ("a"))).connected
            = (run 1 [Event.connect 1, Event.connect 2, Event.join 1 ("a")]).connected)
        ∧ ((step 1 (run 1 [Event.connect 1, Event.connect 2, Event.join 1 ("a")])
              (Event.join 2 ("a"))).used
            = (run 1 [Event.connect 1, Event.connect 2, Event.join 1 ("a")]).used)) :=
  ⟨by decide,
    capacity_rejection_atomic 1 [Event.connect 1, Event.connect 2, Event.join 1 ("a")]
      2 ("a") (by decide) (by decide)⟩

/-- Counterexample to C3 as stated: when connection 1, already the sole member
of room "a", joins "a" again, the joined reply carries peers [1], while the
membership immediately before the add (after the removal from the prior room,
which is "a" itself) is empty — so the reply does not equal the membership
immediately before the joining connection was added. -/
theorem join_snapshot_counterexample :
    ((run 50 [Event.connect 1, Event.join 1 ("a"), Event.join 1 ("a")]).outbox
        = [(1, Msg.joined ("a") []), (1, Msg.joined ("a") [1])])
    ∧ (joinPreAddMembers (run 50 [Event.connect 1, Event.join 1 ("a")]) 1 ("a") = [])
    ∧ (([1] : List SID) ≠ ([] : List SID)) := by
  decide

/-- C3 (amended): Join snapshot — for every accepted join, the peers list in
the joined reply equals exactly the room's membership as read at the start of
join processing, before the joining connection is removed from its prior room
and appended to the target room; the snapshot is order-preserving and
duplicate-free.  (On a self-rejoin this snapshot still contains the joining
connection, so it differs from the membership immediately before the add.) -/
theorem join_snapshot_presnapshot (max : Nat) (es : List Event) (sid : SID) (room : RoomName)
    (h1 : sid ∈ (run max es).connected)
    (h2 : (allSocketsForRoom (run max es).rooms room).length < max) :
    ((step max (run max es) (Event.join sid room)).outbox
        = (run max es).outbox
          ++ [(sid, Msg.joined room (allSocketsForRoom (run max es).rooms room))])
    ∧ (allSocketsForRoom (run max es).rooms room).Nodup := by
  refine ⟨?_, (inv_run max es).1 room⟩
  rw [join_accepted_state h1 h2]

/-- Witness for C3 (amended) at a concrete run: connection 2 joins room "a"
which already holds connection 1, and the reply carries the snapshot [1]. -/
theorem join_snapshot_presnapshot_witness :
    ((allSocketsForRoom (run 50 [Event.connect 1, Event.connect 2, Event.join 1 ("a")]).rooms
        ("a")).length < 50)
    ∧ (((step 50 (run 50 [Event.connect 1, Event.connect 2, Event.join 1 ("a")])
            (Event.join 2 ("a"))).outbox
          = (run 50 [Event.connect 1, Event.connect 2, Event.join 1 ("a")]).outbox
            ++ [(2, Msg.joined ("a")
                (allSocketsForRoom
                  (run 50 [Event.connect 1, Event.connect 2, Event.join 1 ("a")]).rooms ("a")))])
        ∧ (allSocketsForRoom
            (run 50 [Event.connect 1, Event.connect 2, Event.join 1 ("a")]).rooms ("a")).Nodup) :=
  ⟨by decide,
    join_snapshot_presnapshot 50 [Event.connect 1, Event.connect 2, Event.join 1 ("a")]
      2 ("a") (by decide) (by decide)⟩

/-- C10: Self-rejoin snapshot — when a connection joins the room it is already
a member of and the room is under capacity, the joined reply's peers list
contains the connection's own identifier, because the snapshot is read before
the connection is removed from and re-appended to that room. -/
theorem self_rejoin_snapshot (max : Nat) (es : List Event) (sid : SID) (room : RoomName)
    (h1 : sid ∈ (run max es).connected)
    (h2 : sid ∈ allSocketsForRoom (run max es).rooms room)
    (h3 : (allSocketsForRoom (run max es).rooms room).length < max) :
    ((step max (run max es) (Event.join sid room)).outbox
        = (run max es).outbox
          ++ [(sid, Msg.joined room (allSocketsForRoom (run max es).rooms room))])
    ∧ sid ∈ allSocketsForRoom (run max es).rooms room :=
  ⟨by rw [join_accepted_state h1 h3], h2⟩

/-- Witness for C10 at a concrete run: connection 1 rejoins room "a" and the
reply's peers list, the pre-removal snapshot [1], contains 1 itself. -/
theorem self_rejoin_snapshot_witness :
    (1 ∈ allSocketsForRoom (run 50 [Event.connect 1, Event.join 1 ("a")]).rooms ("a"))
    ∧ (((step 50 (run 50 [Event.connect 1, Event.join 1 ("a")])
            (Event.join 1 ("a"))).outbox
          = (run 50 [Event.connect 1, Event.join 1 ("a")]).outbox
            ++ [(1, Msg.joined ("a")
                (allSocketsForRoom (run 50 [Event.connect 1, Event.join 1 ("a")]).rooms ("a")))])
        ∧ 1 ∈ allSocketsForRoom (run 50 [Event.connect 1, Event.join 1 ("a")]).rooms ("a")) :=
  ⟨by decide,
    self_rejoin_snapshot 50 [Event.connect 1, Event.join 1 ("a")] 1 ("a")
      (by decide) (by decide) (by decide)⟩

/-- Counterexample to C4 as stated: connection 2 is marked broken by an error
trigger while still present in the transport's connected registry; a signal
from connection 1 addressed to 2 is nevertheless forwarded to 2, because the
delivery path (`socketByID`) consults only the connected registry and never
the broken flag — so a broken connection can be a delivery target. -/
theorem silent_drop_counterexample :
    ((run 50 [Event.connect 1, Event.connect 2, Event.teardown 2,
        Event.signal 1 (SignalData.mk (some 1) (some 2) 0)]).brokenSockets 2 = true)
    ∧ ((2, Msg.signalMsg (SignalData.mk (some 1) (some 2) 0))
        ∈ (run 50 [Event.connect 1, Event.connect 2, Event.teardown 2,
            Event.signal 1 (SignalData.mk (some 1) (some 2) 0)]).outbox) := by
  decide

/-- C4 (amended): Silent drop on unresolved target — for every signal event
whose `to` identifier is absent or does not resolve in the transport's
connected registry, the relay state is completely unchanged: no outbound
message is emitted to any connection and no error is surfaced to the sender.
(The broken flag is not consulted by the delivery path, so a connection marked
broken but still present in the connected registry does receive the
message.) -/
theorem silent_drop_unresolved_target (max : Nat) (es : List Event) (sid : SID)
    (data : SignalData)
    (h : ∀ t, data.toID = some t → t ∉ (run max es).connected) :
    step max (run max es) (Event.signal sid data) = run max es :=
  signal_drop_state h

/-- Witness for C4 (amended) at a concrete run: a signal addressed to the
never-connected identifier 99 changes nothing. -/
theorem silent_drop_unresolved_target_witness :
    ((99 : SID) ∉ (run 50 [Event.connect 1]).connected)
    ∧ (step 50 (run 50 [Event.connect 1])
          (Event.signal 1 (SignalData.mk (some 1) (some 99) 0))
        = run 50 [Event.connect 1]) :=
  ⟨by decide,
    silent_drop_unresolved_target 50 [Event.connect 1] 1 (SignalData.mk (some 1) (some 99) 0)
      (by decide)⟩

/-- C6: Disconnect idempotence — firing the teardown handler twice for the
same connection produces the same end state as firing it once on every state
component, except that the second firing appends a duplicate batch of remove
broadcasts (the claim's "safely ignored duplicate"); after the first firing
the connection is marked broken and is absent from every room's
membership. -/
theorem teardown_idempotent (max : Nat) (es : List Event) (sid : SID)
    (h : sid ∈ (run max es).used) :
    ((step max (step max (run max es) (Event.teardown sid)) (Event.teardown sid)).rooms
        = (step max (run max es) (Event.teardown sid)).rooms)
    ∧ ((step max (step max (run max es) (Event.teardown sid)) (Event.teardown sid)).brokenSockets
        = (step max (run max es) (Event.teardown sid)).brokenSockets)
    ∧ ((step max (step max (run max es) (Event.teardown sid)) (Event.teardown sid)).currentRoom
        = (step max (run max es) (Event.teardown sid)).currentRoom)
    ∧ ((step max (step max (run max es) (Event.teardown sid)) (Event.teardown sid)).connected
        = (step max (run max es) (Event.teardown sid)).connected)
    ∧ ((step max (step max (run max es) (Event.teardown sid)) (Event.teardown sid)).used
        = (step max (run max es) (Event.teardown sid)).used)
    ∧ ((step max (step max (run max es) (Event.teardown sid)) (Event.teardown sid)).outbox
        = (step max (run max es) (Event.teardown sid)).outbox
          ++ (step max (run max es) (Event.teardown sid)).connected.map
              (fun c => (c, Msg.removeMsg sid)))
    ∧ ((step max (run max es) (Event.teardown sid)).brokenSockets sid = true)
    ∧ (∀ r, sid ∉ allSocketsForRoom (step max (run max es) (Event.teardown sid)).rooms r) := by
  have h1 : sid ∈ (step max (run max es) (Event.teardown sid)).used := by
    rw [teardown_state h]
    exact h
  rw [teardown_state h1, teardown_state h]
  refine ⟨?_, ?_, rfl, rfl, rfl, rfl, ?_, ?_⟩
  · exact removeSocketFromRoom_idem (run max es).rooms sid ((run max es).currentRoom sid)
  · funext x
    show (if x = sid then true
          else if x = sid then true else (run max es).brokenSockets x)
        = (if x = sid then true else (run max es).brokenSockets x)
    by_cases hx : x = sid
    · rw [if_pos hx, if_pos hx]
    · rw [if_neg hx, if_neg hx]
  · show (if sid = sid then true else (run max es).brokenSockets sid) = true
    rw [if_pos rfl]
  · intro r
    exact not_mem_remove_cur (inv_run max es) sid r

/-- Witness for C6 at a concrete run: connection 1, a member of room "a", is
torn down and is thereby marked broken. -/
theorem teardown_idempotent_witness :
    (1 ∈ (run 50 [Event.connect 1, Event.connect 2, Event.join 1 ("a")]).used)
    ∧ ((step 50 (run 50 [Event.connect 1, Event.connect 2, Event.join 1 ("a")])
          (Event.teardown 1)).brokenSockets 1 = true) :=
  ⟨by decide,
    (teardown_idempotent 50 [Event.connect 1, Event.connect 2, Event.join 1 ("a")] 1
      (by decide)).2.2.2.2.2.2.1⟩

/-- C7: Identity-mismatch forwarding — a signal whose `from` field differs
from the sending connection's own identifier is still forwarded to the `to`
connection, with the full payload unchanged, including the caller-supplied
`from` field (the mismatch is only logged and is non-fatal). -/
theorem identity_mismatch_forwarded (max : Nat) (es : List Event) (sid t : SID)
    (data : SignalData)
    (h0 : sid ∈ (run max es).connected)
    (h1 : data.fromID ≠ some sid)
    (h2 : data.toID = some t)
    (h3 : t ∈ (run max es).connected) :
    (step max (run max es) (Event.signal sid data)).outbox
      = (run max es).outbox ++ [(t, Msg.signalMsg data)] := by
  have hsock : socketByID (run max es) t = some t := by
    simp only [socketByID, if_pos h3]
  simp only [step, if_pos h0, handleSignal, h2, hsock]

/-- Witness for C7 at a concrete run: connection 1 sends a signal whose from
field is 5 (not 1); the payload is forwarded verbatim to connection 2. -/
theorem identity_mismatch_forwarded_witness :
    ((SignalData.mk (some 5) (some 2) 7).fromID ≠ some 1)
    ∧ ((step 50 (run 50 [Event.connect 1, Event.connect 2])
          (Event.signal 1 (SignalData.mk (some 5) (some 2) 7))).outbox
        = (run 50 [Event.connect 1, Event.connect 2]).outbox
          ++ [(2, Msg.signalMsg (SignalData.mk (some 5) (some 2) 7))]) :=
  ⟨by decide,
    identity_mismatch_forwarded 50 [Event.connect 1, Event.connect 2] 1 2
      (SignalData.mk (some 5) (some 2) 7) (by decide) (by decide) (by decide) (by decide)⟩

/-- Counterexample to C8 as stated: connection 2 is marked broken by an error
trigger while still in the connected registry, and the resulting remove
broadcast is delivered to connection 2 itself — the recipients are not "every
connection except the broken one itself". -/
theorem remove_broadcast_counterexample :
    ((run 50 [Event.connect 1, Event.connect 2, Event.teardown 2]).brokenSockets 2 = true)
    ∧ ((2, Msg.removeMsg 2)
        ∈ (run 50 [Event.connect 1, Event.connect 2, Event.teardown 2]).outbox) := by
  decide

/-- C8 (amended): Removal notification scope — whenever a connection is marked
broken, a remove message carrying its identifier is broadcast, and the
recipients are exactly the connections in the transport's connected registry
at that moment; this includes the broken connection itself when it is still
registered (error trigger), and excludes it when the transport has already
removed it (disconnect trigger). -/
theorem remove_broadcast_recipients (max : Nat) (es : List Event) (sid : SID)
    (h : sid ∈ (run max es).used) :
    ((step max (run max es) (Event.teardown sid)).outbox
        = (run max es).outbox
          ++ (run max es).connected.map (fun c => (c, Msg.removeMsg sid)))
    ∧ ((step max (run max es) (Event.teardown sid)).brokenSockets sid = true) := by
  rw [teardown_state h]
  refine ⟨rfl, ?_⟩
  show (if sid = sid then true else (run max es).brokenSockets sid) = true
  rw [if_pos rfl]

/-- Witness for C8 (amended) at a concrete run: tearing down connection 2
broadcasts remove to both connected sockets 1 and 2. -/
theorem remove_broadcast_recipients_witness :
    (2 ∈ (run 50 [Event.connect 1, Event.connect 2]).used)
    ∧ (((step 50 (run 50 [Event.connect 1, Event.connect 2]) (Event.teardown 2)).outbox
          = (run 50 [Event.connect 1, Event.connect 2]).outbox
            ++ (run 50 [Event.connect 1, Event.connect 2]).connected.map
                (fun c => (c, Msg.removeMsg 2)))
        ∧ ((step 50 (run 50 [Event.connect 1, Event.connect 2])
              (Event.teardown 2)).brokenSockets 2 = true)) :=
  ⟨by decide,
    remove_broadcast_recipients 50 [Event.connect 1, Event.connect 2] 2 (by decide)⟩

/-- C9: TURN whitelist check defect — whenever the shared secret is
configured, the referrer-whitelist check of the `/peers.json` handler invokes
`contains` on an ordinary array, a method that does not exist on JS arrays, so
the check as implemented always throws a TypeError at runtime instead of
performing a membership test, for every whitelist and every referrer. -/
theorem turn_whitelist_always_throws (secret : String) (whitelist : List String)
    (referer : Option String) :
    peersWhitelistGate (some secret) whitelist referer
      = Except.error ("TypeError: contains is not a function") := by
  rfl

end PeerSchool
